import Mathlib

/-!
Verification development for the BLEBonders backend (profile ingestion
pipeline and similarity service).  The Python sources are shallowly
embedded: pure functions become Lean functions, external services
(S3, Transcribe, Bedrock) become explicit oracle parameters or
environment records, exceptions become `Except`, and floating-point
numbers are idealised as rationals (stored data) and reals (computed
scores).  Storage reads performed by a code path are tracked in an
explicit access log so that claims of the form "no storage access
occurs" are literal statements about the log.
-/

/- ### Python string primitives (ASCII model)

Python `str.strip`, `str.lower`, `str.find`, `str.rfind`, slicing and
`str.split` are modelled at the character-list level.  Whitespace and
case conversion are modelled for the ASCII range, which covers every
identifier and sentinel string appearing in the repository. -/

/-- Whitespace characters recognised by the model of Python `str.strip`. -/
def isPySpace (c : Char) : Bool :=
  c = ' ' || c = '\t' || c = '\n' || c = '\x0d' || c = '\x0b' || c = '\x0c'

/-- Model of Python `str.strip()` (no arguments): drop leading and trailing
whitespace. -/
def pyStrip (s : String) : String :=
  ⟨(s.data.dropWhile isPySpace).reverse.dropWhile isPySpace |>.reverse⟩

/-- ASCII lower-casing of one character, modelling Python `str.lower`. -/
def lowerChar (c : Char) : Char :=
  if 'A' ≤ c ∧ c ≤ 'Z' then Char.ofNat (c.toNat + 32) else c

/-- Model of Python `str.lower()`. -/
def pyLower (s : String) : String := ⟨s.data.map lowerChar⟩

/-- Model of Python `str.find(c)`: first index of `c`, or `-1`. -/
def pyFind (s : String) (c : Char) : Int :=
  match s.data.findIdx? (· = c) with
  | some i => (i : Int)
  | none => -1

/-- Model of Python `str.rfind(c)`: last index of `c`, or `-1`. -/
def pyRFind (s : String) (c : Char) : Int :=
  match s.data.reverse.findIdx? (· = c) with
  | some i => (s.data.length - 1 - i : Int)
  | none => -1

/-- Model of Python slicing `s[start:stop]` for nonnegative bounds. -/
def pySlice (s : String) (start stop : Nat) : String :=
  ⟨(s.data.drop start).take (stop - start)⟩

/-- Split a character list at every occurrence of `c`
(model of Python `str.split(c)`, which keeps empty pieces). -/
def splitCharList (c : Char) : List Char → List (List Char)
  | [] => [[]]
  | x :: xs =>
    match splitCharList c xs with
    | [] => if x = c then [[], []] else [[x]]
    | y :: ys => if x = c then [] :: y :: ys else (x :: y) :: ys

/- ### Similarity service: `app_similarity.py` -/

/-- Model of `_sanitize` in `app_similarity.py`:
`(name or "").strip().lower()`.  A missing JSON field arrives as `none`
(Python `None`), which `or` turns into the empty string. -/
def sanitize (name : Option String) : String :=
  pyLower (pyStrip (name.getD ""))

/-- `sum(px * py for px, py in zip(x, y))` in `_cosine`. -/
def dotList (x y : List ℚ) : ℚ :=
  ((x.zip y).map fun p => p.1 * p.2).sum

/-- `sum(px * px for px in x)`, the squared L2 norm used inside `_cosine`
(whose square root is `nx` resp. `ny`). -/
def sqNorm (x : List ℚ) : ℚ :=
  (x.map fun v => v * v).sum

/-- Model of `_cosine` in `app_similarity.py` (`handler`, step 5):
`0.0 if (nx == 0 or ny == 0) else dot / (nx * ny)` where
`nx = math.sqrt(sum(px*px))`, `ny = math.sqrt(sum(py*py))`.
Floats are idealised as reals; stored vector entries as rationals. -/
noncomputable def cosine (x y : List ℚ) : ℝ :=
  if Real.sqrt ((sqNorm x : ℚ) : ℝ) = 0 ∨ Real.sqrt ((sqNorm y : ℚ) : ℝ) = 0 then 0
  else ((dotList x y : ℚ) : ℝ) /
    (Real.sqrt ((sqNorm x : ℚ) : ℝ) * Real.sqrt ((sqNorm y : ℚ) : ℝ))

/-- Cosine similarity written the way the specification words it: the dot
product ranges over matching-index pairs (up to the shorter length), each
norm ranges over that vector's full length, and the result is `0.0` when
either norm is zero. -/
noncomputable def cosineSpec (x y : List ℚ) : ℝ :=
  if Real.sqrt (∑ i ∈ Finset.range x.length, ((x.getD i 0 : ℚ) : ℝ) * ((x.getD i 0 : ℚ) : ℝ)) = 0 ∨
     Real.sqrt (∑ i ∈ Finset.range y.length, ((y.getD i 0 : ℚ) : ℝ) * ((y.getD i 0 : ℚ) : ℝ)) = 0 then 0
  else (∑ i ∈ Finset.range (min x.length y.length), ((x.getD i 0 : ℚ) : ℝ) * ((y.getD i 0 : ℚ) : ℝ)) /
    (Real.sqrt (∑ i ∈ Finset.range x.length, ((x.getD i 0 : ℚ) : ℝ) * ((x.getD i 0 : ℚ) : ℝ)) *
     Real.sqrt (∑ i ∈ Finset.range y.length, ((y.getD i 0 : ℚ) : ℝ) * ((y.getD i 0 : ℚ) : ℝ)))

lemma sqNorm_nonneg (x : List ℚ) : 0 ≤ sqNorm x := by
  unfold sqNorm
  apply List.sum_nonneg
  intro a ha
  rcases List.mem_map.1 ha with ⟨v, _, rfl⟩
  exact mul_self_nonneg v

lemma dotList_eq_sum (x y : List ℚ) :
    dotList x y = ∑ i ∈ Finset.range (min x.length y.length), x.getD i 0 * y.getD i 0 := by
  induction x generalizing y with
  | nil => simp [dotList]
  | cons a x ih =>
    cases y with
    | nil => simp [dotList]
    | cons b y =>
      have h : dotList (a :: x) (b :: y) = a * b + dotList x y := by
        simp [dotList]
      rw [h, ih y]
      rw [List.length_cons, List.length_cons, Nat.succ_min_succ, Finset.sum_range_succ']
      simp [add_comm]

lemma sqNorm_eq_sum (x : List ℚ) :
    sqNorm x = ∑ i ∈ Finset.range x.length, x.getD i 0 * x.getD i 0 := by
  induction x with
  | nil => simp [sqNorm]
  | cons a x ih =>
    have h : sqNorm (a :: x) = a * a + sqNorm x := by simp [sqNorm]
    rw [h, ih, List.length_cons, Finset.sum_range_succ']
    simp [add_comm]

/-- Claim C6: for every pair of vectors where either vector's L2 norm is
zero (in particular any all-zero vector), `_cosine` returns exactly `0.0`
and never divides by zero: the zero-norm guard fires whenever a sum of
squares is zero. -/
theorem cosine_zero_norm (x y : List ℚ) (h : sqNorm x = 0 ∨ sqNorm y = 0) :
    cosine x y = 0 := by
  have hg : Real.sqrt ((sqNorm x : ℚ) : ℝ) = 0 ∨ Real.sqrt ((sqNorm y : ℚ) : ℝ) = 0 := by
    rcases h with h | h
    · left; rw [h]; norm_num
    · right; rw [h]; norm_num
  unfold cosine
  rw [if_pos hg]

/-- Witness for C6: the all-zero vector `[0, 0]` against `[1, 2]`. -/
theorem cosine_zero_norm_witness :
    sqNorm [0, 0] = 0 ∧ cosine [0, 0] [1, 2] = 0 :=
  ⟨by simp [sqNorm], cosine_zero_norm [0, 0] [1, 2] (Or.inl (by simp [sqNorm]))⟩

/-- Claim C9: for vectors of different lengths `_cosine` is total and
raises no index error: it agrees with the indexed formula whose dot
product ranges over indices below the shorter length while each norm
ranges over that vector's full length. -/
theorem cosine_mismatched_lengths (x y : List ℚ) (h : x.length ≠ y.length) :
    cosine x y = cosineSpec x y := by
  have hx : ((sqNorm x : ℚ) : ℝ) =
      ∑ i ∈ Finset.range x.length, ((x.getD i 0 : ℚ) : ℝ) * ((x.getD i 0 : ℚ) : ℝ) := by
    rw [sqNorm_eq_sum]; push_cast; rfl
  have hy : ((sqNorm y : ℚ) : ℝ) =
      ∑ i ∈ Finset.range y.length, ((y.getD i 0 : ℚ) : ℝ) * ((y.getD i 0 : ℚ) : ℝ) := by
    rw [sqNorm_eq_sum]; push_cast; rfl
  have hd : ((dotList x y : ℚ) : ℝ) =
      ∑ i ∈ Finset.range (min x.length y.length), ((x.getD i 0 : ℚ) : ℝ) * ((y.getD i 0 : ℚ) : ℝ) := by
    rw [dotList_eq_sum]; push_cast; rfl
  unfold cosine cosineSpec
  rw [hx, hy, hd]

/-- Witness for C9: a 3-vector against a 2-vector. -/
theorem cosine_mismatched_lengths_witness :
    ([1, 2, 3] : List ℚ).length ≠ ([4, 5] : List ℚ).length ∧
      cosine [1, 2, 3] [4, 5] = cosineSpec [1, 2, 3] [4, 5] :=
  ⟨by decide, cosine_mismatched_lengths [1, 2, 3] [4, 5] (by decide)⟩

/- ### Similarity handler: environment and response model -/

/-- Python exceptions that matter to control flow: `FileNotFoundError`
(raised by `_load_s3_json` for a missing key) versus every other
exception (boto3 / Bedrock errors, `RuntimeError`, parse errors). -/
inductive PyErr where
  | fileNotFound (key : String)
  | exc (msg : String)
deriving DecidableEq

/-- Python `str(e)`: for `FileNotFoundError(key)` this is the key. -/
def PyErr.errText : PyErr → String
  | .fileNotFound k => k
  | .exc m => m

/-- A stored `profile.json` document: a JSON object whose fields are lists
of short strings (the schema produced by the extractor). -/
abbrev Profile := List (String × List String)

/-- Key of a stored vector: `f"profiles/{profile_name}/vector.json"`. -/
def vectorKeyOf (name : String) : String := "profiles/" ++ name ++ "/vector.json"

/-- Key of a stored profile: `f"profiles/{profile_name}/profile.json"`. -/
def profileKeyOf (name : String) : String := "profiles/" ++ name ++ "/profile.json"

/-- Environment of one similarity request: the stored objects and the
outcomes of the two Bedrock text-generation calls.  `sentenceOf` models
`build_sentence_from_profile` and `icebreakersOf` models
`build_icebreakers_between_profiles`; an `Except.error` value is the
exception that call would raise. -/
structure SimEnv where
  vectors : String → Option (List ℚ)
  profiles : String → Option Profile
  sentenceOf : Profile → Except PyErr String
  icebreakersOf : Profile → Profile → Except PyErr (List String)

/-- The four response shapes `handler` can produce via `_json`:
status 400, 404, 500, and the status-200 success body
`{"ok": true, "similarity": ..., "summaries": {a: ..., b: ...}, "icebreakers": ...}`. -/
inductive SimResponse where
  | badRequest (msg : String)
  | notFound (msg : String)
  | serverError (msg : String)
  | success (similarity : ℝ) (aName bName : String)
      (summaryA summaryB : Option String) (icebreakers : Option (List String))

def SimResponse.isSuccess : SimResponse → Bool
  | .success .. => true
  | _ => false

def SimResponse.statusCode : SimResponse → Nat
  | .badRequest _ => 400
  | .notFound _ => 404
  | .serverError _ => 500
  | .success .. => 200

/-- The `similarity` field of a success response. -/
noncomputable def SimResponse.simOf : SimResponse → Option ℝ
  | .success s .. => some s
  | _ => none

/-- The summary attached to the first profile in a success response
(`some none` = present-but-null). -/
def SimResponse.summaryAOf : SimResponse → Option (Option String)
  | .success _ _ _ sa _ _ => some sa
  | _ => none

/-- The summary attached to the second profile in a success response. -/
def SimResponse.summaryBOf : SimResponse → Option (Option String)
  | .success _ _ _ _ sb _ => some sb
  | _ => none

/-- The `icebreakers` field of a success response. -/
def SimResponse.iceOf : SimResponse → Option (Option (List String))
  | .success _ _ _ _ _ ib => some ib
  | _ => none

/-- Step 6 of `handler` for one name: `try: prof = _load_profile(name);
sentence = build_sentence_from_profile(prof)` with
`except FileNotFoundError: prof = None; sentence = None`.  Any other
exception is uncaught here and propagates (`Except.error`). -/
def summaryStep (env : SimEnv) (name : String) :
    Except PyErr (Option Profile × Option String) :=
  match env.profiles name with
  | none => .ok (none, none)
  | some p =>
    match env.sentenceOf p with
    | .ok s => .ok (some p, some s)
    | .error (.fileNotFound _) => .ok (none, none)
    | .error (.exc m) => .error (.exc m)

/-- Step 7 of `handler`: `if prof_a and prof_b:` (Python truthiness, so an
empty dict is skipped) with `except Exception: icebreakers = None`. -/
def icebreakerStep (env : SimEnv) (profA profB : Option Profile) :
    Option (List String) :=
  match profA, profB with
  | some p1, some p2 =>
    if p1.isEmpty || p2.isEmpty then none
    else
      match env.icebreakersOf p1 p2 with
      | .ok l => some l
      | .error _ => none
  | _, _ => none

/-- Model of `handler` in `app_similarity.py` from the point where the
JSON body has been parsed (body transport and JSON parsing are
entrypoint wiring; a missing field arrives as `none`).  The second
component is the list of storage keys accessed, in order; the outer
`except Exception` turns any uncaught exception into a 500 response. -/
noncomputable def handler (env : SimEnv) (profileA profileB : Option String) :
    SimResponse × List String :=
  let a := sanitize profileA
  let b := sanitize profileB
  if a = "" ∨ b = "" then (.badRequest "profileA and profileB are required", [])
  else
    match env.vectors a with
    | none => (.notFound ("Vector file not found: " ++ vectorKeyOf a), [vectorKeyOf a])
    | some v1 =>
      match env.vectors b with
      | none =>
        (.notFound ("Vector file not found: " ++ vectorKeyOf b),
          [vectorKeyOf a, vectorKeyOf b])
      | some v2 =>
        let score := cosine v1 v2
        match summaryStep env a with
        | .error e =>
          (.serverError e.errText, [vectorKeyOf a, vectorKeyOf b, profileKeyOf a])
        | .ok (profA, sentA) =>
          match summaryStep env b with
          | .error e =>
            (.serverError e.errText,
              [vectorKeyOf a, vectorKeyOf b, profileKeyOf a, profileKeyOf b])
          | .ok (profB, sentB) =>
            (.success score a b sentA sentB (icebreakerStep env profA profB),
              [vectorKeyOf a, vectorKeyOf b, profileKeyOf a, profileKeyOf b])

/-- Claim C7: if either identifier is empty after sanitization, `handler`
returns the 400 response and the storage access log is empty — no vector
or profile read occurs, whatever the stores hold. -/
theorem handler_empty_id_400 (env : SimEnv) (pa pb : Option String)
    (h : sanitize pa = "" ∨ sanitize pb = "") :
    handler env pa pb = (.badRequest "profileA and profileB are required", []) := by
  unfold handler
  rw [if_pos h]

/-- Environment with empty stores and benign oracles. -/
def emptyEnv : SimEnv where
  vectors := fun _ => none
  profiles := fun _ => none
  sentenceOf := fun _ => .ok ""
  icebreakersOf := fun _ _ => .ok []

/-- Witness for C7: a whitespace-only `profileA`. -/
theorem handler_empty_id_400_witness :
    sanitize (some "   ") = "" ∧
      handler emptyEnv (some "   ") (some "bob") =
        (.badRequest "profileA and profileB are required", []) :=
  ⟨by decide, handler_empty_id_400 emptyEnv (some "   ") (some "bob") (Or.inl (by decide))⟩

lemma summaryStep_ok_of_no_exc (env : SimEnv) (n : String)
    (hgen : ∀ p m, env.sentenceOf p ≠ .error (.exc m)) :
    ∃ prof sent, summaryStep env n = .ok (prof, sent) ∧
      (env.profiles n = none → prof = none ∧ sent = none) := by
  cases hp : env.profiles n with
  | none => exact ⟨none, none, by simp [summaryStep, hp], fun _ => ⟨rfl, rfl⟩⟩
  | some p =>
    cases hs : env.sentenceOf p with
    | ok s =>
      exact ⟨some p, some s, by simp [summaryStep, hp, hs], fun hn => by simp [hp] at hn⟩
    | error e =>
      cases e with
      | fileNotFound k =>
        exact ⟨none, none, by simp [summaryStep, hp, hs], fun _ => ⟨rfl, rfl⟩⟩
      | exc m => exact absurd hs (hgen p m)

lemma icebreakerStep_none_of_fail (env : SimEnv) (profA profB : Option Profile)
    (hfail : ∀ p1 p2 l, env.icebreakersOf p1 p2 ≠ .ok l) :
    icebreakerStep env profA profB = none := by
  cases profA with
  | none => rfl
  | some p1 =>
    cases profB with
    | none => rfl
    | some p2 =>
      by_cases hemp : (p1.isEmpty || p2.isEmpty) = true
      · simp [icebreakerStep, hemp]
      · cases hi : env.icebreakersOf p1 p2 with
        | ok l => exact absurd hi (hfail p1 p2 l)
        | error e => simp [icebreakerStep, hemp, hi]

/-- Claim C1 (amended): when both vectors load, as long as the
summary-building call never raises a non-`FileNotFoundError` exception,
the response succeeds with exactly the computed cosine similarity
(whatever the icebreaker oracle does); a missing profile degrades that
summary to null, and icebreaker failures degrade the icebreakers to
null.  (The unamended claim fails: a generation-service error during
summary building is uncaught and yields a 500 — see the
counterexample.) -/
theorem handler_enrichment_degrades (env : SimEnv) (pa pb : Option String)
    (v1 v2 : List ℚ)
    (ha : sanitize pa ≠ "") (hb : sanitize pb ≠ "")
    (hv1 : env.vectors (sanitize pa) = some v1)
    (hv2 : env.vectors (sanitize pb) = some v2)
    (hgen : ∀ p m, env.sentenceOf p ≠ .error (.exc m)) :
    (handler env pa pb).1.isSuccess = true ∧
    (handler env pa pb).1.simOf = some (cosine v1 v2) ∧
    (env.profiles (sanitize pa) = none →
      (handler env pa pb).1.summaryAOf = some none) ∧
    (env.profiles (sanitize pb) = none →
      (handler env pa pb).1.summaryBOf = some none) ∧
    ((∀ p1 p2 l, env.icebreakersOf p1 p2 ≠ .ok l) →
      (handler env pa pb).1.iceOf = some none) := by
  obtain ⟨prA, sentA, hstepA, hmissA⟩ := summaryStep_ok_of_no_exc env (sanitize pa) hgen
  obtain ⟨prB, sentB, hstepB, hmissB⟩ := summaryStep_ok_of_no_exc env (sanitize pb) hgen
  have hcond : ¬(sanitize pa = "" ∨ sanitize pb = "") := by
    push_neg
    exact ⟨ha, hb⟩
  have hres : handler env pa pb =
      (.success (cosine v1 v2) (sanitize pa) (sanitize pb) sentA sentB
          (icebreakerStep env prA prB),
        [vectorKeyOf (sanitize pa), vectorKeyOf (sanitize pb),
          profileKeyOf (sanitize pa), profileKeyOf (sanitize pb)]) := by
    simp only [handler, if_neg hcond, hv1, hv2, hstepA, hstepB]
  refine ⟨?_, ?_, ?_, ?_, ?_⟩
  · rw [hres]; rfl
  · rw [hres]; rfl
  · intro hmiss
    rw [hres]
    have := (hmissA hmiss).2
    simp [SimResponse.summaryAOf, this]
  · intro hmiss
    rw [hres]
    have := (hmissB hmiss).2
    simp [SimResponse.summaryBOf, this]
  · intro hfail
    rw [hres]
    simp [SimResponse.iceOf, icebreakerStep_none_of_fail env prA prB hfail]

/-- Environment for the C1 witness: both vectors stored, both profiles
missing, summary generation succeeding, icebreaker generation
failing. -/
def degradeEnv : SimEnv where
  vectors := fun k =>
    if k = "alice" then some [1, 0] else if k = "bob" then some [0, 1] else none
  profiles := fun _ => none
  sentenceOf := fun _ => .ok "musical"
  icebreakersOf := fun _ _ => .error (.exc "bedrock down")

/-- Witness for the amended C1: raw identifiers " Alice " and "bob",
both profiles missing, failing icebreaker oracle — still a success
response carrying the cosine score, with both summaries and the
icebreakers degraded to null. -/
theorem handler_enrichment_degrades_witness :
    (handler degradeEnv (some " Alice ") (some "bob")).1.isSuccess = true ∧
    (handler degradeEnv (some " Alice ") (some "bob")).1.simOf =
      some (cosine [1, 0] [0, 1]) ∧
    (handler degradeEnv (some " Alice ") (some "bob")).1.summaryAOf = some none ∧
    (handler degradeEnv (some " Alice ") (some "bob")).1.summaryBOf = some none ∧
    (handler degradeEnv (some " Alice ") (some "bob")).1.iceOf = some none := by
  have h := handler_enrichment_degrades degradeEnv (some " Alice ") (some "bob")
    [1, 0] [0, 1] (by decide) (by decide) (by rfl) (by rfl)
    (fun p m hcontra => Except.noConfusion hcontra)
  exact ⟨h.1, h.2.1, h.2.2.1 rfl, h.2.2.2.1 rfl,
    h.2.2.2.2 (fun p1 p2 l hcontra => Except.noConfusion hcontra)⟩

/-- Environment for the C1 counterexample: both vectors and both
profiles stored, but the summary-generation service raises. -/
def summaryFailEnv : SimEnv where
  vectors := fun k =>
    if k = "alice" then some [1, 0] else if k = "bob" then some [0, 1] else none
  profiles := fun k =>
    if k = "alice" then some [("hobbies", ["chess"])]
    else if k = "bob" then some [("hobbies", ["music"])] else none
  sentenceOf := fun _ => .error (.exc "bedrock converse failed")
  icebreakersOf := fun _ _ => .ok ["Do you both like games?"]

/-- Counterexample to C1 as stated: both vectors load, but an error
raised by the text-generation service while building the first summary
is not degraded to null — the response is a 500 error, not a success. -/
theorem handler_summary_error_500 :
    (handler summaryFailEnv (some "alice") (some "bob")).1 =
      .serverError "bedrock converse failed" ∧
    (handler summaryFailEnv (some "alice") (some "bob")).1.isSuccess = false := by
  constructor <;> rfl

/- ### JSON values and stored objects -/

/-- JSON values, used for Transcribe job results and transcript
artifacts. -/
inductive Json where
  | null
  | bool (b : Bool)
  | num (q : ℚ)
  | str (s : String)
  | arr (items : List Json)
  | obj (fields : List (String × Json))

/-- Field lookup in a JSON object (Python `d[k]` / `k in d`; dict keys
are unique, so first match is the match). -/
def Json.lookup (k : String) : List (String × Json) → Option Json
  | [] => none
  | (k', v) :: rest => if k' = k then some v else Json.lookup k rest

/-- Python truthiness of a JSON value (`if tkey:`). -/
def Json.truthy : Json → Bool
  | .null => false
  | .bool b => b
  | .num q => q != 0
  | .str s => ¬s.isEmpty
  | .arr l => ¬l.isEmpty
  | .obj l => ¬l.isEmpty

/-- A stored S3 object: its raw text body together with the result of
`json.loads` on that body (`none` when the body is not valid JSON). -/
structure S3Object where
  raw : String
  parsed : Option Json

/-- The object store: key to object, `none` when the key is absent. -/
abbrev S3Store := String → Option S3Object

/- ### Embedding generator: `embeddings.py` -/

/-- `profile.get(key, [])` on a stored profile document. -/
def profileGet (profile : Profile) (k : String) : List String :=
  match profile with
  | [] => []
  | (k', v) :: rest => if k' = k then v else profileGet rest k

/-- The per-category comprehension in `_flatten_profile`:
`[s.strip() for s in profile.get(key, []) if s and str(s).strip()]`. -/
def cleanEntries (l : List String) : List String :=
  (l.filter fun s => ¬s.isEmpty && ¬(pyStrip s).isEmpty).map pyStrip

/-- Model of `_flatten_profile` in `embeddings.py`.  Note the exact keys:
`"hobbies"`, `"personality traits"`, and `"traits looking for "` with a
trailing space. -/
def flatten_profile (profile : Profile) : String :=
  let hobbies := cleanEntries (profileGet profile "hobbies")
  let traits := cleanEntries (profileGet profile "personality traits")
  let looking := cleanEntries (profileGet profile "traits looking for ")
  let parts :=
    (if hobbies.isEmpty then [] else ["hobbies: " ++ String.intercalate ", " hobbies]) ++
    (if traits.isEmpty then [] else ["personality: " ++ String.intercalate ", " traits]) ++
    (if looking.isEmpty then [] else ["looking_for: " ++ String.intercalate ", " looking])
  if parts.isEmpty then "" else String.intercalate " | " parts

/-- The local `text` of `embed_profile` after its fallback: the flattened
profile, or the fixed sentinel `"hobbies: | personality: | looking_for: "`
when the flattening is empty.  This is the string handed to
`embed_text`. -/
def embedInputText (profile : Profile) : String :=
  let text := flatten_profile profile
  if text = "" then "hobbies: | personality: | looking_for: " else text

/-- Model of `embed_profile` in `embeddings.py`, with the external
Titan embedding call abstracted as `embedText`. -/
def embed_profile (embedText : String → List ℚ) (profile : Profile) : List ℚ :=
  embedText (embedInputText profile)

/-- A profile category list is "blank" when every entry is empty or
whitespace-only (so the comprehension in `_flatten_profile` drops it). -/
def blankEntries (l : List String) : Prop :=
  ∀ s ∈ l, s.isEmpty || (pyStrip s).isEmpty

instance (l : List String) : Decidable (blankEntries l) := by
  unfold blankEntries; infer_instance

lemma cleanEntries_eq_nil_of_blank (l : List String) (h : blankEntries l) :
    cleanEntries l = [] := by
  unfold cleanEntries
  have : l.filter (fun s => ¬s.isEmpty && ¬(pyStrip s).isEmpty) = [] := by
    rw [List.filter_eq_nil]
    intro s hs
    have := h s hs
    cases he : s.isEmpty with
    | true => simp [he]
    | false =>
      rw [he] at this
      simp at this
      simp [this]
  rw [this]
  rfl

/-- Counterexample to C3 as stated: flattening an entirely empty profile
yields the empty string, not the fixed sentinel — the sentinel is
substituted later, in `embed_profile`. -/
theorem flatten_profile_empty_counterexample :
    flatten_profile [] = "" ∧
      flatten_profile [] ≠ "hobbies: | personality: | looking_for: " :=
  ⟨rfl, by decide⟩

/-- Claim C3 (amended): for every profile whose three category lists are
empty or blank, `_flatten_profile` returns the empty string, and
`embed_profile` replaces it by the fixed sentinel, so the text handed to
the embedding service is never empty (for any profile at all). -/
theorem flatten_empty_gives_sentinel_input (profile : Profile)
    (h1 : blankEntries (profileGet profile "hobbies"))
    (h2 : blankEntries (profileGet profile "personality traits"))
    (h3 : blankEntries (profileGet profile "traits looking for ")) :
    flatten_profile profile = "" ∧
    embedInputText profile = "hobbies: | personality: | looking_for: " ∧
    (∀ q : Profile, embedInputText q ≠ "") := by
  have hf : flatten_profile profile = "" := by
    simp only [flatten_profile, cleanEntries_eq_nil_of_blank _ h1,
      cleanEntries_eq_nil_of_blank _ h2, cleanEntries_eq_nil_of_blank _ h3]
    rfl
  have hunfold : ∀ q : Profile, embedInputText q =
      if flatten_profile q = "" then "hobbies: | personality: | looking_for: "
      else flatten_profile q := fun _ => rfl
  refine ⟨hf, ?_, ?_⟩
  · rw [hunfold, hf]
    decide
  · intro q
    rw [hunfold]
    by_cases hq : flatten_profile q = ""
    · rw [if_pos hq]; decide
    · rw [if_neg hq]; exact hq

/-- Witness for the amended C3: a profile whose lists hold only blank
strings. -/
theorem flatten_empty_gives_sentinel_input_witness :
    flatten_profile [("hobbies", ["", "  "]), ("personality traits", [])] = "" ∧
    embedInputText [("hobbies", ["", "  "]), ("personality traits", [])] =
      "hobbies: | personality: | looking_for: " ∧
    (∀ q : Profile, embedInputText q ≠ "") :=
  flatten_empty_gives_sentinel_input [("hobbies", ["", "  "]), ("personality traits", [])]
    (by decide) (by decide) (by decide)

lemma flatten_profile_congr (p q : Profile)
    (h1 : profileGet p "hobbies" = profileGet q "hobbies")
    (h2 : profileGet p "personality traits" = profileGet q "personality traits")
    (h3 : profileGet p "traits looking for " = profileGet q "traits looking for ") :
    flatten_profile p = flatten_profile q := by
  simp only [flatten_profile, h1, h2, h3]

lemma profileGet_cons_ne (k' : String) (v : List String) (p : Profile) (k : String)
    (h : ¬k' = k) : profileGet ((k', v) :: p) k = profileGet p k := by
  simp [profileGet, h]

/-- Claim C10: only the exact keys `"hobbies"`, `"personality traits"`
and `"traits looking for "` (trailing space) contribute to the flattened
text: a binding under `"traits looking for"` (no trailing space, the
similarity side's spelling) never changes the result, and profiles that
agree on the three exact keys flatten identically. -/
theorem flatten_ignores_unspaced_key :
    (∀ (xs : List String) (p : Profile),
      flatten_profile (("traits looking for", xs) :: p) = flatten_profile p) ∧
    (∀ p q : Profile,
      profileGet p "hobbies" = profileGet q "hobbies" →
      profileGet p "personality traits" = profileGet q "personality traits" →
      profileGet p "traits looking for " = profileGet q "traits looking for " →
      flatten_profile p = flatten_profile q) := by
  constructor
  · intro xs p
    apply flatten_profile_congr
    · exact profileGet_cons_ne _ _ _ _ (by decide)
    · exact profileGet_cons_ne _ _ _ _ (by decide)
    · exact profileGet_cons_ne _ _ _ _ (by decide)
  · exact flatten_profile_congr

/-- Witness for C10: sought traits filed under the unspaced key are
silently dropped, and agreement on the three exact keys suffices. -/
theorem flatten_ignores_unspaced_key_witness :
    flatten_profile [("traits looking for", ["kind"]), ("hobbies", ["chess"])] =
      flatten_profile [("hobbies", ["chess"])] ∧
    flatten_profile [("traits looking for", ["kind"])] = "" ∧
    flatten_profile [("age", ["30"]), ("hobbies", ["chess"])] =
      flatten_profile [("hobbies", ["chess"])] :=
  ⟨flatten_ignores_unspaced_key.1 ["kind"] [("hobbies", ["chess"])],
   (flatten_ignores_unspaced_key.1 ["kind"] []).trans rfl,
   flatten_ignores_unspaced_key.2 _ _ rfl rfl rfl⟩

/- ### Icebreaker post-processing: `bedrock_agent.py` -/

/-- Concatenation of the `text` entries of the Converse content blocks
(`for b in blocks: if isinstance(b, dict) and "text" in b: text += b["text"]`;
the service only ever puts strings there). -/
def agentResponseText (blocks : List Json) : String :=
  blocks.foldl
    (fun acc b =>
      match b with
      | .obj fields =>
        match Json.lookup "text" fields with
        | some (.str s) => acc ++ s
        | _ => acc
      | _ => acc)
    ""

/-- The line filtering at the end of `build_icebreakers_between_profiles`:
split on newlines, strip, drop blanks; keep lines that start with a digit,
start with a dash, or contain a question mark; if fewer than two such
lines, fall back to the first two non-empty lines; return at most two. -/
def icebreakerListFromText (text : String) : List String :=
  let lines :=
    ((splitCharList '\n' text.data).map fun l => (pyStrip ⟨l⟩).data).filter
      fun l => ¬l.isEmpty
  let questions := lines.filter fun l =>
    (match l with
     | c :: _ => c.isDigit
     | [] => false) || l.take 1 = ['-'] || l.contains '?'
  let questions := if questions.length < 2 then lines.take 2 else questions
  (questions.take 2).map fun l => ⟨l⟩

/-- Model of `build_icebreakers_between_profiles` with the external
Converse call represented by its response content blocks. -/
def build_icebreakers (blocks : List Json) : List String :=
  icebreakerListFromText (agentResponseText blocks)

/-- Claim C8 (amended): the icebreaker builder returns at most two
strings; the 70-character bound is only requested in the prompt, not
enforced on the output (see the counterexample). -/
theorem build_icebreakers_at_most_two (blocks : List Json) :
    (build_icebreakers blocks).length ≤ 2 := by
  unfold build_icebreakers icebreakerListFromText
  simp only [List.length_map, List.length_take]
  exact min_le_left _ _

/-- Counterexample to C8 as stated: a single long question line passes
the filter untruncated, so a returned string exceeds 70 characters. -/
theorem build_icebreakers_over_70_counterexample :
    build_icebreakers
        [.obj [("text", .str "What is your favorite way to combine chess strategy with live guitar music on a weekend afternoon?")]] =
      ["What is your favorite way to combine chess strategy with live guitar music on a weekend afternoon?"] ∧
    70 <
      ("What is your favorite way to combine chess strategy with live guitar music on a weekend afternoon?" : String).length := by
  constructor <;> decide

/- ### Profile extractor: `bedrock_profile.py` -/

/-- The `text_blocks` comprehension in `build_profile_from_transcript`:
`[b.get("text", "") for b in content_blocks if isinstance(b, dict) and "text" in b]`
(the `""` default is dead, since membership was just checked). -/
def textBlocksOf (blocks : List Json) : List Json :=
  blocks.filterMap fun b =>
    match b with
    | .obj fields => Json.lookup "text" fields
    | _ => none

/-- The fallback slice `text[start:end + 1]` from the first opening brace
to the last closing brace. -/
def braceSlice (text : String) : String :=
  pySlice text (pyFind text '\x7b').toNat ((pyRFind text '\x7d').toNat + 1)

/-- Model of `build_profile_from_transcript` in `bedrock_profile.py`,
with the Bedrock Converse call represented by its response content
blocks and `json.loads` by the parameter `jparse` (returning `none` when
the argument is not valid JSON, in which case Python raises). -/
def build_profile_from_transcript (jparse : String → Option Json) (blocks : List Json) :
    Except PyErr Json :=
  match textBlocksOf blocks with
  | [] => .error (.exc "Bedrock (Nova) response missing text content.")
  | first :: _ =>
    match first with
    | .str s =>
      let text := pyStrip s
      match jparse text with
      | some j => .ok j
      | none =>
        if 0 ≤ pyFind text '\x7b' ∧ 0 ≤ pyRFind text '\x7d' then
          match jparse (braceSlice text) with
          | some j => .ok j
          | none => .error (.exc "json.loads: parse failure")
        else .error (.exc "json.loads: parse failure")
    | _ => .error (.exc "TypeError: strip is not defined on a non-string")

/-- Claim C5: profile extraction first attempts a strict parse of the
(stripped) response text; on failure it parses the substring from the
first opening to the last closing brace; if both fail it propagates an
error, and it only ever returns a value that one of the two parses
produced — never a silently substituted empty profile. -/
theorem build_profile_parse_policy (jparse : String → Option Json)
    (blocks : List Json) (s : String) (rest : List Json)
    (hb : textBlocksOf blocks = .str s :: rest) :
    (∀ j, jparse (pyStrip s) = some j →
      build_profile_from_transcript jparse blocks = .ok j) ∧
    (jparse (pyStrip s) = none →
      0 ≤ pyFind (pyStrip s) '\x7b' → 0 ≤ pyRFind (pyStrip s) '\x7d' →
      ∀ j, jparse (braceSlice (pyStrip s)) = some j →
        build_profile_from_transcript jparse blocks = .ok j) ∧
    (jparse (pyStrip s) = none →
      (¬(0 ≤ pyFind (pyStrip s) '\x7b' ∧ 0 ≤ pyRFind (pyStrip s) '\x7d') ∨
        jparse (braceSlice (pyStrip s)) = none) →
      ∃ m, build_profile_from_transcript jparse blocks = .error m) ∧
    (∀ j, build_profile_from_transcript jparse blocks = .ok j →
      jparse (pyStrip s) = some j ∨ jparse (braceSlice (pyStrip s)) = some j) := by
  have hcore : build_profile_from_transcript jparse blocks =
      (match jparse (pyStrip s) with
       | some j => .ok j
       | none =>
         if 0 ≤ pyFind (pyStrip s) '\x7b' ∧ 0 ≤ pyRFind (pyStrip s) '\x7d' then
           match jparse (braceSlice (pyStrip s)) with
           | some j => .ok j
           | none => .error (.exc "json.loads: parse failure")
         else .error (.exc "json.loads: parse failure")) := by
    simp only [build_profile_from_transcript, hb]
  refine ⟨?_, ?_, ?_, ?_⟩
  · intro j hj
    rw [hcore]
    simp only [hj]
  · intro hn h1 h2 j hj
    rw [hcore]
    simp only [hn]
    rw [if_pos ⟨h1, h2⟩]
    simp only [hj]
  · intro hn hbad
    rw [hcore]
    simp only [hn]
    rcases hbad with hbad | hslice
    · rw [if_neg hbad]
      exact ⟨_, rfl⟩
    · by_cases hcond : 0 ≤ pyFind (pyStrip s) '\x7b' ∧ 0 ≤ pyRFind (pyStrip s) '\x7d'
      · rw [if_pos hcond]
        simp only [hslice]
        exact ⟨_, rfl⟩
      · rw [if_neg hcond]
        exact ⟨_, rfl⟩
  · intro j hok
    rw [hcore] at hok
    cases hp : jparse (pyStrip s) with
    | some j' =>
      rw [hp] at hok
      simp only [Except.ok.injEq] at hok
      subst hok
      left
      rfl
    | none =>
      rw [hp] at hok
      simp only [] at hok
      by_cases hcond : 0 ≤ pyFind (pyStrip s) '\x7b' ∧ 0 ≤ pyRFind (pyStrip s) '\x7d'
      · rw [if_pos hcond] at hok
        cases hq : jparse (braceSlice (pyStrip s)) with
        | some j' =>
          rw [hq] at hok
          simp only [Except.ok.injEq] at hok
          subst hok
          right
          rfl
        | none =>
          rw [hq] at hok
          exact absurd hok (by simp)
      · rw [if_neg hcond] at hok
        exact absurd hok (by simp)

/-- Witness for C5: a response whose first text block strictly parses
after stripping, and a second configuration where nothing parses and an
error propagates. -/
theorem build_profile_parse_policy_witness :
    build_profile_from_transcript
        (fun s => if s = "\x7b\x7d" then some (.obj []) else none)
        [.obj [("text", .str "  \x7b\x7d ")], .obj [("other", .null)]] = .ok (.obj []) ∧
    (∃ m, build_profile_from_transcript (fun _ => none)
        [.obj [("text", .str "no json here")]] = .error m) := by
  constructor
  · exact (build_profile_parse_policy
      (fun s => if s = "\x7b\x7d" then some (.obj []) else none)
      [.obj [("text", .str "  \x7b\x7d ")], .obj [("other", .null)]]
      "  \x7b\x7d " [] rfl).1 (.obj []) rfl
  · exact (build_profile_parse_policy (fun _ => none)
      [.obj [("text", .str "no json here")]]
      "no json here" [] rfl).2.2.1 rfl (Or.inl (by decide))

/- ### Ingestion pipeline: `lambda_function.py` -/

/-- `os.path.basename`: the part of the key after the last `/`. -/
def afterLastSlash (l : List Char) : List Char :=
  l.foldl (fun acc c => if c = '/' then [] else acc ++ [c]) []

/-- The root part of `os.path.splitext`: drop the suffix starting at the
last dot, except when every character before that dot is itself a dot
(CPython's leading-dot rule, e.g. `.bashrc` keeps its name). -/
def splitextRoot (base : List Char) : List Char :=
  match base.reverse.findIdx? (· = '.') with
  | none => base
  | some ri =>
    let d := base.length - 1 - ri
    if (base.take d).all (· = '.') then base else base.take d

/-- Model of `_base_name` in `lambda_function.py`:
`os.path.splitext(os.path.basename(key))[0]`.  `lambda_handler` uses
this, untrimmed and case-preserved, as the storage identifier
(`profile_name = _base_name(key)`). -/
def base_name (key : String) : String :=
  ⟨splitextRoot (afterLastSlash key.data)⟩

/-- A value written to storage by the ingestion pipeline. -/
inductive S3WriteBody where
  | profileDoc (p : Profile)
  | vectorDoc (v : List ℚ)

/-- Model of `_save_profile_and_vector`: the ordered writes it performs
(profile first, then vector) and the returned
`{"profile_key": ..., "vector_key": ...}` dict. -/
def save_profile_and_vector (profile_name : String) (profile : Profile)
    (vector : List ℚ) : List (String × S3WriteBody) × (String × String) :=
  let base_folder := "profiles/" ++ profile_name ++ "/"
  let profile_key := base_folder ++ "profile.json"
  let vector_key := base_folder ++ "vector.json"
  ([(profile_key, .profileDoc profile), (vector_key, .vectorDoc vector)],
   (profile_key, vector_key))

lemma string_append_assoc (a b c : String) : a ++ b ++ c = a ++ (b ++ c) := by
  apply String.ext
  simp [String.data_append]

/-- Claim C2 (amended): one ingestion run persists the profile and the
vector under one and the same identifier — but that identifier is the
recording's raw base file name (`_base_name(key)`), with no trimming or
lower-casing; the similarity service, which sanitizes the identifiers it
receives, reads back the written keys exactly when the base name is
already equal to its sanitized form. -/
theorem ingestion_keys_share_identifier (key : String) (profile : Profile)
    (vector : List ℚ) :
    ((save_profile_and_vector (base_name key) profile vector).1.map Prod.fst =
      [profileKeyOf (base_name key), vectorKeyOf (base_name key)]) ∧
    ((save_profile_and_vector (base_name key) profile vector).2 =
      (profileKeyOf (base_name key), vectorKeyOf (base_name key))) ∧
    (sanitize (some (base_name key)) = base_name key →
      vectorKeyOf (sanitize (some (base_name key))) = vectorKeyOf (base_name key) ∧
      profileKeyOf (sanitize (some (base_name key))) = profileKeyOf (base_name key)) := by
  refine ⟨?_, ?_, ?_⟩
  · simp only [save_profile_and_vector, profileKeyOf, vectorKeyOf, List.map,
      string_append_assoc]
    rfl
  · simp only [save_profile_and_vector, profileKeyOf, vectorKeyOf,
      string_append_assoc]
    rfl
  · intro hfix
    rw [hfix]
    exact ⟨rfl, rfl⟩

/-- Witness for the amended C2: an already-lower-case recording name. -/
theorem ingestion_keys_share_identifier_witness :
    ((save_profile_and_vector (base_name "uploads/alice.mp3") [] [1, 0]).1.map Prod.fst =
      [profileKeyOf (base_name "uploads/alice.mp3"), vectorKeyOf (base_name "uploads/alice.mp3")]) ∧
    ((save_profile_and_vector (base_name "uploads/alice.mp3") [] [1, 0]).2 =
      (profileKeyOf (base_name "uploads/alice.mp3"), vectorKeyOf (base_name "uploads/alice.mp3"))) ∧
    (vectorKeyOf (sanitize (some (base_name "uploads/alice.mp3"))) =
      vectorKeyOf (base_name "uploads/alice.mp3") ∧
     profileKeyOf (sanitize (some (base_name "uploads/alice.mp3"))) =
      profileKeyOf (base_name "uploads/alice.mp3")) := by
  have h := ingestion_keys_share_identifier "uploads/alice.mp3" [] [1, 0]
  exact ⟨h.1, h.2.1, h.2.2 (by decide)⟩

/-- Counterexample to C2 as stated: the storage identifier is not the
sanitized user identifier.  For the recording `uploads/Alice.MP3` the
pipeline writes under `Alice`, while the similarity service, sanitizing
the same raw name, reads `profiles/alice/vector.json` — a different
key. -/
theorem ingestion_identifier_not_sanitized_counterexample :
    base_name "uploads/Alice.MP3" = "Alice" ∧
    sanitize (some (base_name "uploads/Alice.MP3")) = "alice" ∧
    base_name "uploads/Alice.MP3" ≠ sanitize (some (base_name "uploads/Alice.MP3")) ∧
    vectorKeyOf (sanitize (some "Alice")) ≠
      (save_profile_and_vector (base_name "uploads/Alice.MP3") [] [1, 0]).2.2 := by
  refine ⟨by decide, by decide, by decide, by decide⟩

/-- The nested speech-to-text schema path
`payload["results"]["transcripts"][0]["transcript"]`; `none` models the
`KeyError`/`TypeError`/`IndexError` Python would raise along the way. -/
def nestedTranscript (payload : Json) : Option Json :=
  match payload with
  | .obj fields =>
    match Json.lookup "results" fields with
    | some (.obj rf) =>
      match Json.lookup "transcripts" rf with
      | some (.arr (first :: _)) =>
        match first with
        | .obj tf => Json.lookup "transcript" tf
        | _ => none
      | _ => none
    | _ => none
  | _ => none

/-- The dual-schema extraction duplicated at lines 69–71 and 91–93 of
`lambda_function.py`: a top-level `transcript` field wins, otherwise the
nested result path. -/
def transcriptFromPayload (payload : Json) : Option Json :=
  match payload with
  | .obj fields =>
    match Json.lookup "transcript" fields with
    | some v => some v
    | none => nestedTranscript payload
  | _ => nestedTranscript payload

/-- Steps 3–4 of `_load_transcript_text`: wait for `transcripts/<base>.txt`
(short timeout) or `transcripts/<base>.json` (long timeout); raise
`RuntimeError` if neither appears; then try the `.txt` object (returned
as plain text) and fall back to the `.json` object, whose parse and
schema failures are uncaught here.  Waits are modelled as existence
checks on the static store. -/
def conventionalKeysStep (store : S3Store) (base : String) (log : List String) :
    Except PyErr Json × List String :=
  let txt_key := "transcripts/" ++ base ++ ".txt"
  let json_key := "transcripts/" ++ base ++ ".json"
  match store txt_key with
  | some o => (.ok (.str o.raw), log ++ [txt_key])
  | none =>
    match store json_key with
    | none =>
      (.error (.exc ("Transcript not found in time: " ++ txt_key ++ " or " ++ json_key)),
        log ++ [txt_key, json_key])
    | some o =>
      match o.parsed with
      | none => (.error (.exc "json.loads: parse failure"), log ++ [txt_key, json_key])
      | some payload =>
        match transcriptFromPayload payload with
        | some v => (.ok v, log ++ [txt_key, json_key])
        | none => (.error (.exc "KeyError: transcript"), log ++ [txt_key, json_key])

/-- Whether a non-blank string starts with a JSON delimiter
(`stripped[0] not in "{[":` negated). -/
def startsWithJsonDelim (s : String) : Bool :=
  match s.data with
  | c :: _ => c = '\x7b' || c = '['
  | [] => false

/-- Step 2 of `_load_transcript_text`: follow `vpm_result["transcriptKey"]`
when truthy.  The wait result is ignored by the source, so a missing key
makes `s3.get_object` raise; a non-JSON body is returned stripped; a
JSON body is tried against both schemas, any failure being caught by the
bare `except: pass` and falling through to the conventional keys. -/
def transcriptKeyStep (store : S3Store) (base : String)
    (fields : List (String × Json)) : Except PyErr Json × List String :=
  match Json.lookup "transcriptKey" fields with
  | some tkeyVal =>
    if tkeyVal.truthy then
      match tkeyVal with
      | .str tkey =>
        match store tkey with
        | none => (.error (.exc ("NoSuchKey: " ++ tkey)), [tkey])
        | some o =>
          let stripped := pyStrip o.raw
          if ¬stripped.isEmpty && ¬startsWithJsonDelim stripped then
            (.ok (.str stripped), [tkey])
          else
            match o.parsed with
            | none => conventionalKeysStep store base [tkey]
            | some payload =>
              match transcriptFromPayload payload with
              | some v => (.ok v, [tkey])
              | none => conventionalKeysStep store base [tkey]
      | _ => (.error (.exc "ParamValidationError: non-string transcript key"), [])
    else conventionalKeysStep store base []
  | none => conventionalKeysStep store base []

/-- Model of `_load_transcript_text` in `lambda_function.py`.  The first
component is the resolved transcript (a raised exception as `.error`),
the second the ordered list of storage keys consulted. -/
def load_transcript_text (store : S3Store) (orig_key : String) (vpm_result : Json) :
    Except PyErr Json × List String :=
  let base := base_name orig_key
  match vpm_result with
  | .obj fields =>
    match Json.lookup "transcript" fields with
    | some (.str t) =>
      if ¬(pyStrip t).isEmpty then (.ok (.str t), [])
      else transcriptKeyStep store base fields
    | _ => transcriptKeyStep store base fields
  | _ => conventionalKeysStep store (base_name orig_key) []

/-- Claim C4: transcript resolution honours the source order.  (a) A
non-empty inline transcript in the job result is returned as-is with no
storage key consulted at all.  (b) When the job result offers neither
inline text nor a transcript key and only the conventional JSON artifact
exists, the text is extracted through the nested
`results.transcripts[0].transcript` path. -/
theorem load_transcript_resolution_order :
    (∀ (store : S3Store) (orig_key : String) (fields : List (String × Json)) (t : String),
      Json.lookup "transcript" fields = some (.str t) →
      ¬(pyStrip t).isEmpty →
      load_transcript_text store orig_key (.obj fields) = (.ok (.str t), [])) ∧
    (∀ (store : S3Store) (orig_key : String) (fields fields2 : List (String × Json))
        (o : S3Object) (t : Json),
      Json.lookup "transcript" fields = none →
      Json.lookup "transcriptKey" fields = none →
      store ("transcripts/" ++ base_name orig_key ++ ".txt") = none →
      store ("transcripts/" ++ base_name orig_key ++ ".json") = some o →
      o.parsed = some (.obj fields2) →
      Json.lookup "transcript" fields2 = none →
      nestedTranscript (.obj fields2) = some t →
      (load_transcript_text store orig_key (.obj fields)).1 = .ok t) := by
  constructor
  · intro store orig_key fields t hf ht
    simp [load_transcript_text, hf, ht]
  · intro store orig_key fields fields2 o t hf hk htxt hjson hparse hflat hnest
    simp only [load_transcript_text, hf, transcriptKeyStep, hk,
      conventionalKeysStep, htxt, hjson, hparse, transcriptFromPayload, hflat, hnest]

/-- Witness for C4: a job result with inline text, and a bare job result
whose transcript lives only in the conventional JSON artifact under the
Transcribe schema. -/
theorem load_transcript_resolution_order_witness :
    load_transcript_text (fun _ => none) "uploads/rec.mp3"
        (.obj [("transcript", .str "hello there"), ("transcriptKey", .str "transcripts/rec.txt")]) =
      (.ok (.str "hello there"), []) ∧
    (load_transcript_text
        (fun k =>
          if k = "transcripts/rec.json" then
            some ⟨"ignored raw",
              some (.obj [("results",
                .obj [("transcripts", .arr [.obj [("transcript", .str "from nested")]])])])⟩
          else none)
        "uploads/rec.mp3" (.obj [("ok", .bool true)])).1 = .ok (.str "from nested") := by
  constructor
  · exact load_transcript_resolution_order.1 (fun _ => none) "uploads/rec.mp3"
      [("transcript", .str "hello there"), ("transcriptKey", .str "transcripts/rec.txt")]
      "hello there" rfl (by decide)
  · exact load_transcript_resolution_order.2
      (fun k =>
        if k = "transcripts/rec.json" then
          some ⟨"ignored raw",
            some (.obj [("results",
              .obj [("transcripts", .arr [.obj [("transcript", .str "from nested")]])])])⟩
        else none)
      "uploads/rec.mp3" [("ok", .bool true)]
      [("results", .obj [("transcripts", .arr [.obj [("transcript", .str "from nested")]])])]
      ⟨"ignored raw",
        some (.obj [("results",
          .obj [("transcripts", .arr [.obj [("transcript", .str "from nested")]])])])⟩
      (.str "from nested") rfl rfl rfl rfl rfl rfl rfl
